import Mathlib

/-!
Verification of the IL-17A treatment-response prediction app (`app.py`).

The source is a single Streamlit script: a seven-entry feature schema
(`feature_ranges`), a widget loop collecting one value per feature into a
one-row data frame, a pipeline `predict_proba` call with a strict `> 50%`
responder threshold, and a SHAP `TreeExplainer` step run on the scaled
input against the classifier component, all wrapped in one `try`/`except`.

The embedding below mirrors the script directly.  Machine floats are
modelled as exact rationals (`ℚ`); the opaque external artifacts (fitted
scaler, tree-ensemble classifier, SHAP attribution) are abstract function
fields of a `PipelineModel`, and one script rerun is the pure function
`runScript`.
-/

namespace IL17A

/-- One entry of the `feature_ranges` dict in `app.py`: a `type` tag string
plus the kind-specific keys (`min`/`max` for numerical, `options` for
categorical), a `default` and a display `label`. -/
structure FeatureProps where
  type : String
  min : Option ℚ := none
  max : Option ℚ := none
  options : Option (List ℚ) := none
  default : ℚ
  label : String
  deriving DecidableEq

/-- The `feature_ranges` dict of `app.py` (lines 27-76), in its insertion
order, which is the column order of the one-row data frame. -/
def feature_ranges : List (String × FeatureProps) :=
  [ -- 1. BMI (体重指数)
    ("BMI",
      { type := "numerical", min := some 10, max := some 50,
        default := 24, label := "体重指数 (BMI)" }),
    -- 2. Biologics_History (既往生物制剂史) - 0=无, 1=有
    ("Biologics_History",
      { type := "categorical", options := some [0, 1],
        default := 0, label := "既往生物制剂使用史 (0=无, 1=有)" }),
    -- 3. Baseline_PASI (基线 PASI 评分)
    ("Baseline_PASI",
      { type := "numerical", min := some 0, max := some 72,
        default := 15, label := "基线 PASI 评分" }),
    -- 4. Hemoglobin (血红蛋白)
    ("Hemoglobin",
      { type := "numerical", min := some 50, max := some 200,
        default := 130, label := "血红蛋白 (Hb, g/L)" }),
    -- 5. ALP (碱性磷酸酶)
    ("ALP",
      { type := "numerical", min := some 10, max := some 300,
        default := 70, label := "碱性磷酸酶 (ALP, U/L)" }),
    -- 6. IBil (间接胆红素)
    ("IBil",
      { type := "numerical", min := some 0, max := some 50,
        default := 10, label := "间接胆红素 (IBil, μmol/L)" }),
    -- 7. SII (系统免疫炎症指数)
    ("SII",
      { type := "numerical", min := some 0, max := some 5000,
        default := 500, label := "系统免疫炎症指数 (SII)" }) ]

/-- The request-level errors of the collection step. -/
inductive AppError where
  | validation (feature : String)
  deriving DecidableEq

/-- Whether the `type` tag of a schema entry is one the widget loop of
`app.py` (lines 91-105) handles: the `if`/`elif` chain creates a widget
only for the tags `"numerical"` and `"categorical"`. -/
def kindDefined (props : FeatureProps) : Bool :=
  props.type == "numerical" || props.type == "categorical"

/-- Modelled from the spec: the acceptance condition the form toolkit
(outside `src/`) enforces for one widget.  `app.py` passes `min`/`max` to
`st.sidebar.number_input` and `options` to `st.sidebar.selectbox`; the
spec (§4.1, §4.2) states the resulting checks: numerical means
`min ≤ value ≤ max`, categorical means `value ∈ options`. -/
def accepts (props : FeatureProps) (v : ℚ) : Bool :=
  if props.type = "numerical" then
    match props.min, props.max with
    | some lo, some hi => decide (lo ≤ v) && decide (v ≤ hi)
    | _, _ => false
  else if props.type = "categorical" then
    match props.options with
    | some opts => opts.contains v
    | none => false
  else false

/-- Modelled from the spec: one iteration of the widget loop (`app.py`
lines 91-105).  A defined kind yields either the validated value or, per
spec §4.2, a `ValidationError` naming the feature; an unknown `type` tag
falls through both branches and leaves the value undefined (`none`). -/
def widgetValue (feature : String) (props : FeatureProps) (raw : ℚ) :
    Option (Except AppError ℚ) :=
  if kindDefined props then
    some (if accepts props raw then .ok raw else .error (.validation feature))
  else none

/-- Modelled from the spec: the collection loop (`app.py` lines 90-106)
over a schema, in schema order.  Per spec §4.2 an invalid value fails the
whole collection with the `ValidationError` of the offending feature and
no partial record; an undefined-kind fall-through propagates as `none`. -/
def collectFrom : List (String × FeatureProps) → (String → ℚ) →
    Option (Except AppError (List (String × ℚ)))
  | [], _ => some (.ok [])
  | (name, props) :: rest, raws =>
    match widgetValue name props (raws name) with
    | none => none
    | some (.error e) => some (.error e)
    | some (.ok v) =>
      match collectFrom rest raws with
      | none => none
      | some (.error e) => some (.error e)
      | some (.ok r) => some (.ok ((name, v) :: r))

/-- The raw output shapes `explainer.shap_values` may return (`app.py`
lines 170-174): a Python list with one matrix per class, or a single
3-axis array indexed `sample × feature × class`. -/
inductive RawShap where
  | perClassList (vals : List (List (List ℚ)))
  | ndarray3 (vals : List (List (List ℚ)))
  deriving DecidableEq

/-- The fitted tree-ensemble classifier inside the pipeline: an opaque
artifact exposing `predict_proba` on a scaled row, the tree-attribution
computation (`shap_values`, second argument is `check_additivity`), and
the per-class `expected_value` baseline.  Fallible calls model the
exceptions the underlying library may raise. -/
structure TreeEnsemble where
  predict_proba : List ℚ → Except String (List ℚ)
  shap_values : List ℚ → Bool → Except String RawShap
  expected_value : List ℚ

/-- The loaded pipeline artifact `rf_model.pkl`: its `named_steps` are the
fitted `scaler` (consuming the named one-row frame) and the `classifier`. -/
structure PipelineModel where
  scaler : List (String × ℚ) → List ℚ
  classifier : TreeEnsemble

/-- `model.predict_proba(input_df)` on the pipeline (`app.py` line 124):
the pipeline applies its own scaler, then the final classifier. -/
def PipelineModel.predict_proba (m : PipelineModel)
    (input_df : List (String × ℚ)) : Except String (List ℚ) :=
  m.classifier.predict_proba (m.scaler input_df)

/-- The handle `shap.TreeExplainer(rf_classifier)` (`app.py` line 166):
it exposes the attribution computation and baseline carried by the
tree-ensemble it was built from. -/
structure TreeExplainerHandle where
  shap_values : List ℚ → Bool → Except String RawShap
  expected_value : List ℚ

/-- Building the SHAP explainer from the classifier component. -/
def TreeExplainer (c : TreeEnsemble) : TreeExplainerHandle :=
  { shap_values := c.shap_values, expected_value := c.expected_value }

/-- Step 4 of `app.py` (lines 170-174): normalize the raw attribution
output to the class-1 (responder) matrix.  The list shape selects index 1
of the per-class list; the 3-axis shape selects index 1 of the trailing
class axis. -/
def extractShap : RawShap → List (List ℚ)
  | .perClassList vals => vals.getD 1 []
  | .ndarray3 vals => vals.map (fun sample => sample.map (fun cell => cell.getD 1 0))

/-- The baseline picked in the same branch (`app.py` lines 172 and 175):
both shapes read `explainer.expected_value[1]`, the responder class. -/
def extractBase (raw : RawShap) (expected_value : List ℚ) : ℚ :=
  match raw with
  | .perClassList _ => expected_value.getD 1 0
  | .ndarray3 _ => expected_value.getD 1 0

/-- What step A/B of `app.py` (lines 124-153) renders for a successful
prediction: the displayed percentage, verdict text, border color and
advisory text. -/
structure PredictionDisplay where
  probability_responder : ℚ
  result_text : String
  color_code : String
  advice : String
  deriving DecidableEq

/-- The observable outcome of one script rerun: whether the run halted
before its body (missing model or uncaught exception), the rendered
prediction, the rendered explanation (class-1 contribution row and
baseline), and the rendered error message, if any. -/
structure ScriptOutput where
  halted : Bool
  prediction : Option PredictionDisplay
  explanationShown : Option (List ℚ × ℚ)
  errorMessage : Option String
  deriving DecidableEq

/-- The intermediates of step C of `app.py` (lines 158-167): the scaled
input produced by the pipeline's own scaler, the raw attribution of the
classifier component with `check_additivity=False`, and the explainer's
per-class baseline vector. -/
structure ExplainTrace where
  input_scaled : List ℚ
  raw : Except String RawShap
  expected_value : List ℚ

/-- Step C of `app.py` (lines 158-167), up to the shape normalization:
extract `named_steps["classifier"]` and `named_steps["scaler"]`, scale the
input row, build the `TreeExplainer` on the classifier alone and run
`shap_values` with `check_additivity=False`. -/
def explainStep (model : PipelineModel) (input_df : List (String × ℚ)) :
    ExplainTrace :=
  let rf_classifier := model.classifier
  let scaler := model.scaler
  let input_scaled := scaler input_df
  let explainer := TreeExplainer rf_classifier
  { input_scaled := input_scaled
    raw := explainer.shap_values input_scaled false
    expected_value := explainer.expected_value }

/-- The `try` block of `app.py` (lines 122-189): predict, render the
verdict, then compute and render the SHAP explanation; any exception of
the underlying pipeline jumps to the `except` handler (lines 191-193),
which renders the original message appended to the fixed prefix. -/
def tryBlock (model : PipelineModel) (input_df : List (String × ℚ)) :
    ScriptOutput :=
  match model.predict_proba input_df with
  | .error e =>
    { halted := false, prediction := none, explanationShown := none,
      errorMessage := some ("发生错误: " ++ e) }
  | .ok predicted_proba =>
    let probability_responder := predicted_proba.getD 1 0 * 100
    let d : PredictionDisplay :=
      if probability_responder > 50 then
        { probability_responder := probability_responder
          result_text := "Responder (有效)"
          color_code := "#2ca02c"
          advice := "该患者对 IL-17A 治疗反应良好的可能性较高。" }
      else
        { probability_responder := probability_responder
          result_text := "Non-Responder (无效)"
          color_code := "#d62728"
          advice := "该患者可能对治疗反应不佳，建议关注风险因素。" }
    let tr := explainStep model input_df
    match tr.raw with
    | .error e =>
      { halted := false, prediction := some d, explanationShown := none,
        errorMessage := some ("发生错误: " ++ e) }
    | .ok shap_values_raw =>
      let shap_values := extractShap shap_values_raw
      let base_value := extractBase shap_values_raw tr.expected_value
      { halted := false, prediction := some d,
        explanationShown := some (shap_values.getD 0 [], base_value),
        errorMessage := none }

/-- The body of one script rerun after a successful model load: collect
the inputs over the given schema, then run the predict+explain cycle only
if the button was pressed.  A fall-through of the widget loop would leave
`value` unbound and abort the rerun (modelled as a halted output). -/
def scriptBody (model : PipelineModel) (schema : List (String × FeatureProps))
    (raws : String → ℚ) (buttonPressed : Bool) : ScriptOutput :=
  match collectFrom schema raws with
  | none =>
    { halted := true, prediction := none, explanationShown := none,
      errorMessage := some "NameError: name value is not defined" }
  | some (.error (.validation feature)) =>
    { halted := false, prediction := none, explanationShown := none,
      errorMessage := some ("ValidationError: " ++ feature) }
  | some (.ok record) =>
    if buttonPressed then tryBlock model record
    else
      { halted := false, prediction := none, explanationShown := none,
        errorMessage := none }

/-- The outcome of `joblib.load("rf_model.pkl")` at startup (`app.py`
lines 14-19): success, `FileNotFoundError` (caught, `st.stop()`), or a
corrupt artifact whose unpickling exception is uncaught and aborts the
rerun with its own message. -/
inductive LoadResult where
  | ok (model : PipelineModel)
  | fileNotFound
  | corrupt (detail : String)

/-- One full Streamlit script rerun of `app.py`: the load step, then the
body.  A missing model renders the fixed error and stops before any
widget or prediction; a corrupt model aborts with the unpickling error. -/
def runScript (load : LoadResult) (raws : String → ℚ)
    (buttonPressed : Bool) : ScriptOutput :=
  match load with
  | .fileNotFound =>
    { halted := true, prediction := none, explanationShown := none,
      errorMessage := some "未找到模型文件 rf.pkl。请确保文件在同一目录下。" }
  | .corrupt detail =>
    { halted := true, prediction := none, explanationShown := none,
      errorMessage := some detail }
  | .ok model => scriptBody model feature_ranges raws buttonPressed

/-- The process-wide state loaded once at startup: the pipeline artifact
and the feature schema.  A request run reads it and hands it back. -/
structure ProcessState where
  model : PipelineModel
  schema : List (String × FeatureProps)

/-- One request cycle against the process state: the script body run with
the state's model and schema, returning the state the process holds
afterwards. -/
def runRequest (s : ProcessState) (raws : String → ℚ)
    (buttonPressed : Bool) : ScriptOutput × ProcessState :=
  (scriptBody s.model s.schema raws buttonPressed, s)

/-- A concrete well-behaved pipeline artifact used to instantiate the
theorems: the scaler forgets the names, prediction returns a fixed binary
distribution, and the attribution returns one 3-axis sample with one
two-class cell per feature. -/
def demoModel : PipelineModel :=
  { scaler := fun input_df => input_df.map Prod.snd
    classifier :=
      { predict_proba := fun _ => .ok [3/10, 7/10]
        shap_values := fun x _ => .ok (.ndarray3 [x.map (fun v => [v, v])])
        expected_value := [1/2, 1/2] } }

/-- A concrete artifact whose underlying pipeline raises on prediction,
with the kind of message sklearn produces on a feature mismatch. -/
def errModel : PipelineModel :=
  { scaler := fun input_df => input_df.map Prod.snd
    classifier :=
      { predict_proba := fun _ =>
          .error "X has 7 features, but StandardScaler is expecting 6 features as input."
        shap_values := fun _ _ => .error "Additivity check failed"
        expected_value := [] } }

/-- The default value of every widget, as a raw-input assignment. -/
def defaultRaws : String → ℚ
  | "BMI" => 24
  | "Biologics_History" => 0
  | "Baseline_PASI" => 15
  | "Hemoglobin" => 130
  | "ALP" => 70
  | "IBil" => 10
  | "SII" => 500
  | _ => 0

/-- An input of the spec's out-of-range class: a `BMI` below the declared
minimum `10.0`; every other feature keeps its default. -/
def badRaws : String → ℚ :=
  fun name => if name = "BMI" then 9 else defaultRaws name

/-- The record the collection loop produces from the default inputs. -/
def defaultRecord : List (String × ℚ) :=
  [("BMI", 24), ("Biologics_History", 0), ("Baseline_PASI", 15),
   ("Hemoglobin", 130), ("ALP", 70), ("IBil", 10), ("SII", 500)]

/-- Shape contract of the raw attribution output for an input row of `n`
features and one sample, per the external interface of §6 of the spec:
the per-class list carries at least the two classes, each a one-row
matrix of `n` contributions; the 3-axis array carries one sample of `n`
per-class cells. -/
def RawShap.wellShaped : RawShap → Nat → Prop
  | .perClassList vals, n =>
      2 ≤ vals.length ∧ ∀ cls ∈ vals, cls.length = 1 ∧ ∀ row ∈ cls, row.length = n
  | .ndarray3 vals, n => vals.length = 1 ∧ ∀ sample ∈ vals, sample.length = n

/-- The documented contract of the opaque artifacts (§6 of the spec): the
fitted scaler keeps one scaled value per input feature, and a successful
attribution is well shaped for its input row. -/
def WellBehaved (m : PipelineModel) : Prop :=
  (∀ input_df, (m.scaler input_df).length = input_df.length) ∧
  (∀ x b raw, m.classifier.shap_values x b = .ok raw → raw.wellShaped x.length)

theorem collectFrom_names (schema : List (String × FeatureProps))
    (raws : String → ℚ) :
    ∀ record, collectFrom schema raws = some (.ok record) →
      record.map Prod.fst = schema.map Prod.fst := by
  induction schema with
  | nil =>
    intro record h
    simp only [collectFrom, Option.some.injEq, Except.ok.injEq] at h
    simp [← h]
  | cons p rest ih =>
    intro record h
    obtain ⟨name, props⟩ := p
    simp only [collectFrom] at h
    cases hw : widgetValue name props (raws name) with
    | none => rw [hw] at h; exact absurd h (by simp)
    | some res =>
      rw [hw] at h
      cases res with
      | error e => exact absurd h (by simp)
      | ok v =>
        simp only at h
        cases hr : collectFrom rest raws with
        | none => rw [hr] at h; exact absurd h (by simp)
        | some res2 =>
          rw [hr] at h
          cases res2 with
          | error e => exact absurd h (by simp)
          | ok r =>
            simp only [Option.some.injEq, Except.ok.injEq] at h
            subst h
            simpa using ih r hr

theorem collectFrom_isSome (schema : List (String × FeatureProps))
    (raws : String → ℚ)
    (hk : ∀ p ∈ schema, kindDefined p.2 = true) :
    (collectFrom schema raws).isSome = true := by
  induction schema with
  | nil => simp [collectFrom]
  | cons p rest ih =>
    obtain ⟨name, props⟩ := p
    have hkp : kindDefined props = true := hk (name, props) (by simp)
    have hrest := ih (fun q hq => hk q (List.mem_cons_of_mem _ hq))
    simp only [collectFrom, widgetValue, hkp, if_true]
    cases haccept : accepts props (raws name) with
    | false => simp
    | true =>
      simp only [if_true]
      cases hr : collectFrom rest raws with
      | none => rw [hr] at hrest; simp at hrest
      | some res2 => cases res2 <;> simp

theorem collectFrom_error_of_bad (schema : List (String × FeatureProps))
    (raws : String → ℚ)
    (hk : ∀ p ∈ schema, kindDefined p.2 = true)
    (hbad : ∃ p ∈ schema, accepts p.2 (raws p.1) = false) :
    ∃ name, (∃ props, (name, props) ∈ schema ∧ accepts props (raws name) = false) ∧
      collectFrom schema raws = some (.error (.validation name)) := by
  induction schema with
  | nil => simp at hbad
  | cons p rest ih =>
    obtain ⟨name, props⟩ := p
    have hkp : kindDefined props = true := hk (name, props) (by simp)
    cases haccept : accepts props (raws name) with
    | false =>
      refine ⟨name, ⟨props, by simp, haccept⟩, ?_⟩
      simp [collectFrom, widgetValue, hkp, haccept]
    | true =>
      have hbadr : ∃ q ∈ rest, accepts q.2 (raws q.1) = false := by
        obtain ⟨q, hq, hqbad⟩ := hbad
        rcases List.mem_cons.mp hq with hq1 | hq2
        · subst hq1; rw [haccept] at hqbad; exact absurd hqbad (by simp)
        · exact ⟨q, hq2, hqbad⟩
      obtain ⟨n, ⟨q, hqmem, hqbad⟩, hcol⟩ :=
        ih (fun q hq => hk q (List.mem_cons_of_mem _ hq)) hbadr
      refine ⟨n, ⟨q, List.mem_cons_of_mem _ hqmem, hqbad⟩, ?_⟩
      simp [collectFrom, widgetValue, hkp, haccept, hcol]

theorem extractShap_row_length (raw : RawShap) (n : Nat)
    (h : raw.wellShaped n) : ((extractShap raw).getD 0 []).length = n := by
  cases raw with
  | perClassList vals =>
    obtain ⟨h2, hcls⟩ := h
    have h1 : 1 < vals.length := h2
    have hget : vals.getD 1 [] = vals[1] := by
      simp [List.getD_eq_getElem?_getD, List.getElem?_eq_getElem h1]
    have hmem : vals[1] ∈ vals := List.getElem_mem h1
    obtain ⟨hlen1, hrows⟩ := hcls _ hmem
    have h0 : 0 < vals[1].length := by omega
    have hget0 : vals[1].getD 0 [] = vals[1][0] := by
      simp [List.getD_eq_getElem?_getD, List.getElem?_eq_getElem h0]
    have hmem0 : vals[1][0] ∈ vals[1] := List.getElem_mem h0
    simp only [extractShap, hget, hget0]
    exact hrows _ hmem0
  | ndarray3 vals =>
    obtain ⟨hlen1, hsamples⟩ := h
    have h0 : 0 < vals.length := by omega
    have hv : vals[0]? = some vals[0] := List.getElem?_eq_getElem h0
    simp only [extractShap, List.getD_eq_getElem?_getD, List.getElem?_map, hv,
      Option.map_some', Option.getD_some, List.length_map]
    exact hsamples _ (List.getElem_mem h0)

/-- Stacking two same-shape per-class matrices into the 3-axis
`sample × feature × class` layout with a trailing class axis. -/
def stackTrailing (d0 d1 : List (List ℚ)) : List (List (List ℚ)) :=
  List.zipWith (fun r0 r1 => List.zipWith (fun a b => [a, b]) r0 r1) d0 d1

theorem zipPair_map_getD (r0 r1 : List ℚ) (h : r0.length = r1.length) :
    (List.zipWith (fun a b => ([a, b] : List ℚ)) r0 r1).map
      (fun cell => cell.getD 1 0) = r1 := by
  induction r0 generalizing r1 with
  | nil => cases r1 with
    | nil => rfl
    | cons b bs => simp at h
  | cons a as ih =>
    cases r1 with
    | nil => simp at h
    | cons b bs =>
      simp only [List.zipWith_cons_cons, List.map_cons]
      rw [ih bs (by simpa using h)]
      rfl

theorem stackTrailing_extract (d0 d1 : List (List ℚ))
    (hshape : d0.map List.length = d1.map List.length) :
    (stackTrailing d0 d1).map
      (fun sample => sample.map (fun cell => cell.getD 1 0)) = d1 := by
  induction d0 generalizing d1 with
  | nil =>
    cases d1 with
    | nil => rfl
    | cons r rs => simp at hshape
  | cons r0 rest0 ih =>
    cases d1 with
    | nil => simp at hshape
    | cons r1 rest1 =>
      simp only [List.map_cons, List.cons.injEq] at hshape
      simp only [stackTrailing, List.zipWith_cons_cons, List.map_cons]
      rw [zipPair_map_getD r0 r1 hshape.1]
      have := ih rest1 hshape.2
      simp only [stackTrailing] at this
      rw [this]

/-- The demo model is within the documented contract of the artifacts. -/
theorem demoModel_wellBehaved : WellBehaved demoModel := by
  refine ⟨fun df => by simp [demoModel], fun x b raw h => ?_⟩
  have hraw : RawShap.ndarray3 [x.map (fun v => [v, v])] = raw := by
    simpa [demoModel] using h
  subst hraw
  exact ⟨rfl, by intro sample hs; simp at hs; subst hs; simp⟩

/-- The verdict the demo model's prediction renders. -/
def dDemo : PredictionDisplay :=
  { probability_responder := 70
    result_text := "Responder (有效)"
    color_code := "#2ca02c"
    advice := "该患者对 IL-17A 治疗反应良好的可能性较高。" }

/-- C1: a successfully collected record lists exactly the seven schema
features, in schema declaration order, and when the run reaches a
rendered explanation, the contribution row has exactly one value per
feature — 7 values, positionally aligned with the record. -/
theorem C1_record_schema_order (m : PipelineModel) (raws : String → ℚ)
    (record : List (String × ℚ)) (hw : WellBehaved m)
    (hc : collectFrom feature_ranges raws = some (.ok record)) :
    record.map Prod.fst
      = ["BMI", "Biologics_History", "Baseline_PASI", "Hemoglobin", "ALP", "IBil", "SII"] ∧
    record.length = 7 ∧
    ∀ sv base, (runScript (.ok m) raws true).explanationShown = some (sv, base) →
      sv.length = 7 := by
  have hnames : record.map Prod.fst
      = ["BMI", "Biologics_History", "Baseline_PASI", "Hemoglobin", "ALP", "IBil", "SII"] := by
    rw [collectFrom_names feature_ranges raws record hc]; rfl
  have hlen : record.length = 7 := by
    have h7 := congrArg List.length hnames
    simpa using h7
  refine ⟨hnames, hlen, ?_⟩
  intro sv base hshow
  have hrs : runScript (.ok m) raws true = tryBlock m record := by
    simp [runScript, scriptBody, hc]
  rw [hrs] at hshow
  have hdef : (explainStep m record).raw
      = m.classifier.shap_values (m.scaler record) false := rfl
  cases hp : m.predict_proba record with
  | error e => simp [tryBlock, hp] at hshow
  | ok pp =>
    cases hraw : m.classifier.shap_values (m.scaler record) false with
    | error e => simp [tryBlock, hp, hdef, hraw] at hshow
    | ok raw =>
      simp only [tryBlock, hp, hdef, hraw, Option.some.injEq, Prod.mk.injEq] at hshow
      have hsv : sv = (extractShap raw).getD 0 [] := hshow.1.symm
      have hws := hw.2 (m.scaler record) false raw hraw
      have hrow := extractShap_row_length raw (m.scaler record).length hws
      rw [hsv, hrow, hw.1 record, hlen]

/-- C1 witness: the default inputs collect to the seven-feature record in
schema order, and the demo run renders a 7-entry contribution row. -/
theorem C1_witness :
    defaultRecord.map Prod.fst
      = ["BMI", "Biologics_History", "Baseline_PASI", "Hemoglobin", "ALP", "IBil", "SII"] ∧
    defaultRecord.length = 7 ∧
    ([24, 0, 15, 130, 70, 10, 500] : List ℚ).length = 7 := by
  have h := C1_record_schema_order demoModel defaultRaws defaultRecord
    demoModel_wellBehaved rfl
  exact ⟨h.1, h.2.1, h.2.2 [24, 0, 15, 130, 70, 10, 500] (1/2) rfl⟩

/-- C2: the rendered verdict is the responder label exactly when the
class-1 probability is strictly above 1/2, equivalently when the
displayed percentage is strictly above 50; at 1/2 and below the verdict
is the non-responder label. -/
theorem C2_verdict_threshold (m : PipelineModel) (input_df : List (String × ℚ))
    (pp : List ℚ) (d : PredictionDisplay)
    (hp : m.predict_proba input_df = .ok pp)
    (hd : (tryBlock m input_df).prediction = some d) :
    (d.result_text = "Responder (有效)" ↔ 1/2 < pp.getD 1 0) ∧
    (d.result_text = "Responder (有效)" ↔ 50 < d.probability_responder) ∧
    (pp.getD 1 0 ≤ 1/2 → d.result_text = "Non-Responder (无效)") := by
  have hdef : (explainStep m input_df).raw
      = m.classifier.shap_values (m.scaler input_df) false := rfl
  have hd2 : d = if pp.getD 1 0 * 100 > 50 then
      ({ probability_responder := pp.getD 1 0 * 100
         result_text := "Responder (有效)"
         color_code := "#2ca02c"
         advice := "该患者对 IL-17A 治疗反应良好的可能性较高。" } : PredictionDisplay)
    else
      ({ probability_responder := pp.getD 1 0 * 100
         result_text := "Non-Responder (无效)"
         color_code := "#d62728"
         advice := "该患者可能对治疗反应不佳，建议关注风险因素。" } : PredictionDisplay) := by
    cases hraw : m.classifier.shap_values (m.scaler input_df) false with
    | error e =>
      simp only [tryBlock, hp, hdef, hraw, Option.some.injEq] at hd
      exact hd.symm
    | ok raw =>
      simp only [tryBlock, hp, hdef, hraw, Option.some.injEq] at hd
      exact hd.symm
  by_cases hcond : 50 < pp.getD 1 0 * 100
  · rw [if_pos hcond] at hd2
    subst hd2
    have hgt : 1/2 < pp.getD 1 0 := by linarith
    refine ⟨⟨fun _ => hgt, fun _ => rfl⟩, ⟨fun _ => hcond, fun _ => rfl⟩, ?_⟩
    intro hle
    exact absurd hgt (not_lt.mpr hle)
  · rw [if_neg hcond] at hd2
    subst hd2
    have hne : ("Non-Responder (无效)" : String) ≠ "Responder (有效)" := by decide
    have hple : pp.getD 1 0 ≤ 1/2 := by
      by_contra hgt
      push_neg at hgt
      exact hcond (by linarith)
    exact ⟨⟨fun h => absurd h hne, fun h => absurd h (not_lt.mpr hple)⟩,
      ⟨fun h => absurd h hne, fun h => absurd h hcond⟩, fun _ => rfl⟩

/-- C2 witness: the demo model's 70% prediction renders the responder
verdict, consistent with both threshold readings. -/
theorem C2_witness :
    (dDemo.result_text = "Responder (有效)" ↔ 1/2 < ([3/10, 7/10] : List ℚ).getD 1 0) ∧
    (dDemo.result_text = "Responder (有效)" ↔ 50 < dDemo.probability_responder) ∧
    (([3/10, 7/10] : List ℚ).getD 1 0 ≤ 1/2 → dDemo.result_text = "Non-Responder (无效)") :=
  C2_verdict_threshold demoModel defaultRecord [3/10, 7/10] dDemo rfl
    (by norm_num [tryBlock, demoModel, PipelineModel.predict_proba, explainStep,
      TreeExplainer, dDemo])

/-- C3: an input with an out-of-range numerical value or an unlisted
categorical value makes the collection fail with a `ValidationError`
naming an offending feature; no record is produced and no run — whatever
the load outcome — renders a prediction or an explanation. -/
theorem C3_validation_blocks (raws : String → ℚ) (name : String)
    (props : FeatureProps)
    (hmem : (name, props) ∈ feature_ranges)
    (hbad : accepts props (raws name) = false) :
    (∃ n, (∃ q, (n, q) ∈ feature_ranges ∧ accepts q (raws n) = false) ∧
      collectFrom feature_ranges raws = some (.error (.validation n))) ∧
    ∀ load b, (runScript load raws b).prediction = none ∧
      (runScript load raws b).explanationShown = none := by
  have hk : ∀ p ∈ feature_ranges, kindDefined p.2 = true := by decide
  have hex := collectFrom_error_of_bad feature_ranges raws hk
    ⟨(name, props), hmem, hbad⟩
  refine ⟨hex, ?_⟩
  intro load b
  obtain ⟨n, hn, hcol⟩ := hex
  cases load with
  | fileNotFound => exact ⟨rfl, rfl⟩
  | corrupt d => exact ⟨rfl, rfl⟩
  | ok m => constructor <;> simp [runScript, scriptBody, hcol]

/-- C3 witness: `BMI = 9`, below the declared minimum `10.0` (the spec's
out-of-range class of inputs), yields no prediction. -/
theorem C3_witness :
    (runScript (LoadResult.ok demoModel) badRaws true).prediction = none :=
  ((C3_validation_blocks badRaws "BMI"
      { type := "numerical", min := some 10, max := some 50,
        default := 24, label := "体重指数 (BMI)" }
      (by decide) rfl).2 (LoadResult.ok demoModel) true).1

/-- C4: the explanation step scales the record with the pipeline's own
scaler — the identical transform instance that `predict_proba` applies —
and runs the tree attribution of the classifier component alone on that
scaled vector, with the additivity check disabled (`false`). -/
theorem C4_same_scaler_classifier_only (m : PipelineModel)
    (input_df : List (String × ℚ)) :
    (explainStep m input_df).input_scaled = m.scaler input_df ∧
    m.predict_proba input_df = m.classifier.predict_proba (m.scaler input_df) ∧
    (explainStep m input_df).raw
      = m.classifier.shap_values (explainStep m input_df).input_scaled false :=
  ⟨rfl, rfl, rfl⟩

/-- C5: without a successfully loaded model — missing or corrupt artifact
— the rerun halts before its body: no prediction and no explanation is
ever attempted. -/
theorem C5_no_model_halts (load : LoadResult) (raws : String → ℚ) (b : Bool)
    (hno : ∀ m, load ≠ LoadResult.ok m) :
    (runScript load raws b).halted = true ∧
    (runScript load raws b).prediction = none ∧
    (runScript load raws b).explanationShown = none := by
  cases load with
  | ok m => exact absurd rfl (hno m)
  | fileNotFound => exact ⟨rfl, rfl, rfl⟩
  | corrupt d => exact ⟨rfl, rfl, rfl⟩

/-- C5 witness: the missing-artifact run halts with nothing rendered. -/
theorem C5_witness :
    (runScript LoadResult.fileNotFound defaultRaws true).halted = true ∧
    (runScript LoadResult.fileNotFound defaultRaws true).prediction = none ∧
    (runScript LoadResult.fileNotFound defaultRaws true).explanationShown = none :=
  C5_no_model_halts LoadResult.fileNotFound defaultRaws true
    (fun m h => LoadResult.noConfusion h)

/-- C6: both raw attribution shapes — the per-class list and the 3-axis
array with a trailing class axis — normalize to the same canonical
result: the class-1 contribution matrix and the class-1 baseline. -/
theorem C6_shape_normalization (d0 d1 : List (List ℚ)) (ev : List ℚ)
    (hshape : d0.map List.length = d1.map List.length) :
    extractShap (RawShap.perClassList [d0, d1]) = d1 ∧
    extractShap (RawShap.ndarray3 (stackTrailing d0 d1)) = d1 ∧
    extractBase (RawShap.perClassList [d0, d1]) ev = ev.getD 1 0 ∧
    extractBase (RawShap.ndarray3 (stackTrailing d0 d1)) ev = ev.getD 1 0 := by
  refine ⟨rfl, ?_, rfl, rfl⟩
  simpa [extractShap] using stackTrailing_extract d0 d1 hshape

/-- C6 witness: a concrete two-class attribution, in either shape,
normalizes to the class-1 data and baseline. -/
theorem C6_witness :
    extractShap (RawShap.perClassList [[[1, 2]], [[3, 4]]]) = [[3, 4]] ∧
    extractShap (RawShap.ndarray3 (stackTrailing [[1, 2]] [[3, 4]])) = [[3, 4]] ∧
    extractBase (RawShap.perClassList [[[1, 2]], [[3, 4]]]) [5, 6] = 6 ∧
    extractBase (RawShap.ndarray3 (stackTrailing [[1, 2]] [[3, 4]])) [5, 6] = 6 :=
  C6_shape_normalization [[1, 2]] [[3, 4]] [5, 6] rfl

/-- C7: an exception of the underlying pipeline — in prediction or in the
attribution — is rendered in the same cycle with the original message
appended verbatim to the fixed prefix, and the run does not halt. -/
theorem C7_error_surfaced (m : PipelineModel) (raws : String → ℚ)
    (record : List (String × ℚ)) (e : String)
    (hc : collectFrom feature_ranges raws = some (.ok record))
    (herr : m.predict_proba record = .error e ∨
      ((∃ pp, m.predict_proba record = .ok pp) ∧
        m.classifier.shap_values (m.scaler record) false = .error e)) :
    (runScript (.ok m) raws true).errorMessage = some ("发生错误: " ++ e) ∧
    (runScript (.ok m) raws true).halted = false := by
  have hrs : runScript (.ok m) raws true = tryBlock m record := by
    simp [runScript, scriptBody, hc]
  have hdef : (explainStep m record).raw
      = m.classifier.shap_values (m.scaler record) false := rfl
  rw [hrs]
  rcases herr with hp | ⟨⟨pp, hp⟩, hsh⟩
  · constructor <;> simp [tryBlock, hp]
  · constructor <;> simp [tryBlock, hp, hdef, hsh]

/-- C7 witness: a feature-mismatch exception of the pipeline is surfaced
verbatim and the run survives. -/
theorem C7_witness :
    (runScript (LoadResult.ok errModel) defaultRaws true).errorMessage
      = some ("发生错误: "
        ++ "X has 7 features, but StandardScaler is expecting 6 features as input.") ∧
    (runScript (LoadResult.ok errModel) defaultRaws true).halted = false :=
  C7_error_surfaced errModel defaultRaws defaultRecord
    "X has 7 features, but StandardScaler is expecting 6 features as input."
    rfl (Or.inl rfl)

/-- C8 counterexample: the claim says the explanation is never run
unconditionally as part of every prediction, but the script offers no
separate explanation request (`runScript` has no such input at all): in
this concrete cycle, triggered only by the predict button, the
explanation is computed together with the prediction. -/
theorem C8_counterexample :
    (runScript (LoadResult.ok demoModel) defaultRaws true).prediction.isSome = true ∧
    (runScript (LoadResult.ok demoModel) defaultRaws true).explanationShown.isSome = true :=
  ⟨rfl, rfl⟩

/-- C8 (amended): the explanation is lazy only with respect to rendering
— it never runs in a cycle without the predict button press — but the
single button requests the combined predict+explain cycle: whenever the
button is pressed and both the prediction and the attribution succeed,
the explanation is computed in that same cycle. -/
theorem C8_explain_in_predict_cycle (load : LoadResult) (raws : String → ℚ) :
    ((runScript load raws false).explanationShown = none) ∧
    (∀ m record pp raw, load = LoadResult.ok m →
      collectFrom feature_ranges raws = some (.ok record) →
      m.predict_proba record = .ok pp →
      m.classifier.shap_values (m.scaler record) false = .ok raw →
      (runScript load raws true).explanationShown.isSome = true) := by
  constructor
  · cases load with
    | fileNotFound => rfl
    | corrupt d => rfl
    | ok m =>
      simp only [runScript, scriptBody]
      cases hcol : collectFrom feature_ranges raws with
      | none => simp
      | some res =>
        cases res with
        | error err => cases err with | validation f => simp
        | ok record => simp
  · intro m record pp raw hl hc hp hraw
    subst hl
    have hrs : runScript (.ok m) raws true = tryBlock m record := by
      simp [runScript, scriptBody, hc]
    have hdef : (explainStep m record).raw
        = m.classifier.shap_values (m.scaler record) false := rfl
    rw [hrs]
    simp [tryBlock, hp, hdef, hraw]

/-- C8 witness: the demo cycle computes an explanation. -/
theorem C8_witness :
    (runScript (LoadResult.ok demoModel) defaultRaws true).explanationShown.isSome = true :=
  (C8_explain_in_predict_cycle (LoadResult.ok demoModel) defaultRaws).2 demoModel
    defaultRecord [3/10, 7/10]
    (RawShap.ndarray3 [([24, 0, 15, 130, 70, 10, 500] : List ℚ).map (fun v => [v, v])])
    rfl rfl rfl rfl

/-- C9: one request cycle hands back the process state — the loaded model
artifact and the feature schema — unchanged: the operations only read
them. -/
theorem C9_request_reads_only (s : ProcessState) (raws : String → ℚ) (b : Bool) :
    (runRequest s raws b).2 = s ∧
    (runRequest s raws b).2.model = s.model ∧
    (runRequest s raws b).2.schema = s.schema :=
  ⟨rfl, rfl, rfl⟩

/-- C10: every schema entry's kind tag is `"numerical"` or
`"categorical"`, so the widget loop assigns a value to every feature and
the undefined-value fall-through is unreachable: collection never aborts
with the unbound-value outcome, whatever the raw inputs. -/
theorem C10_kinds_total (raws : String → ℚ) :
    feature_ranges.all (fun p => kindDefined p.2) = true ∧
    (collectFrom feature_ranges raws).isSome = true :=
  ⟨by decide, collectFrom_isSome feature_ranges raws (by decide)⟩

end IL17A
